import Mathlib

/-!
Verification of the goncat e2e test harness library (`test/e2e/lib.py`).

The file embeds the outcome-classification engine of the harness:
the log patterns `SESSION_RE` and `ERROR_RE`, the polling classifier
`_wait_for_outcome`, the best-effort teardown `_kill_best_effort`, and the
verdict-comparison logic of `MasterRunner` / `MasterConnector`
(`run_positive` / `run_negative`), together with theorems about them.

Modelling conventions:
* Lines of process output are `List Char` (the harness reads text lines).
* A run of the classifier loop is abstracted by the finite trace of its
  iterations: each `PollStep` records the line dequeued from the tee queue
  in that iteration (`none` when `queue.get` timed out empty), the elapsed
  time consumed by the iteration (`dt`, in abstract nonnegative time units
  matching the seconds used by `wait_secs`), and what `proc.poll()`
  observed at the end of the iteration (`exited`).  A trace that ends while
  wall-clock time is still inside the wait window models a run in which all
  remaining iterations dequeue nothing and observe no exit, so the loop
  spins until the deadline and returns through the final
  `return "error" if saw_error else "timeout"` line; the `[]` case of the
  loop therefore returns that same verdict.
* Verdicts are the Python strings `"session" | "error" | "timeout" | "eof"`.
-/

namespace Goncat

/-- Pairwise literal match of `pat` against the beginning of `l`
(how a literal regex fragment matches at a fixed position). -/
def litPrefixOf : List Char → List Char → Bool
  | [], _ => true
  | _ :: _, [] => false
  | p :: ps, c :: cs => p == c && litPrefixOf ps cs

/-- Unanchored search for a literal pattern, as `re.search` does for a
regex with no metacharacters: try to match at every start position. -/
def litSearch (pat : List Char) : List Char → Bool
  | [] => litPrefixOf pat []
  | c :: cs => litPrefixOf pat (c :: cs) || litSearch pat cs

/-- Match `.*` followed by the literal `pat`: either `pat` matches here, or
consume one character (any but a newline, which `.` does not match) and
continue. -/
def dotStarThen (pat : List Char) : List Char → Bool
  | [] => litPrefixOf pat []
  | c :: cs => litPrefixOf pat (c :: cs) || (c != '\n' && dotStarThen pat cs)

/-- Anchored match of `SESSION_RE`'s pattern `Session with .* established`
at the start of `l`. -/
def sessionAt (l : List Char) : Bool :=
  litPrefixOf "Session with ".toList l &&
    dotStarThen " established".toList (l.drop "Session with ".toList.length)

/-- `SESSION_RE.search(line) is not None` for
`SESSION_RE = re.compile(r"Session with .* established")` (lib.py line 18):
unanchored search for the pattern. -/
def SESSION_RE_search : List Char → Bool
  | [] => sessionAt []
  | c :: cs => sessionAt (c :: cs) || SESSION_RE_search cs

/-- `ERROR_RE.search(line) is not None` for
`ERROR_RE = re.compile(r"Error:")` (lib.py line 19): the pattern is a pure
literal, so search is literal substring search. -/
def ERROR_RE_search (l : List Char) : Bool :=
  litSearch "Error:".toList l

/-- One iteration of the `_wait_for_outcome` polling loop, as observed by
the loop body: the line dequeued (if any), the time the iteration consumed,
and whether `proc.poll()` returned an exit status. -/
structure PollStep where
  dt : Nat
  line : Option (List Char)
  exited : Bool
deriving DecidableEq, Repr

/-- `return "error" if saw_error else "timeout"` (lib.py line 67). -/
def finishVerdict (sawError : Bool) : String :=
  if sawError then "error" else "timeout"

/-- `return "error" if saw_error else "eof"` (lib.py line 65). -/
def exitVerdict (sawError : Bool) : String :=
  if sawError then "error" else "eof"

/-- The `while time.time() < deadline` loop of `_wait_for_outcome`
(lib.py lines 52-67).  `w` is the deadline (start time is `0`), `t` the
current time, `sawError` the `saw_error` flag.  An exhausted trace stands
for iterations that observe nothing until the deadline, so it returns the
loop's fall-through verdict. -/
def waitLoop (w : Int) : Int → Bool → List PollStep → String
  | _, sawError, [] => finishVerdict sawError
  | t, sawError, s :: rest =>
    if t < w then
      match s.line with
      | some l =>
        if SESSION_RE_search l then "session"
        else
          let sawError2 := sawError || ERROR_RE_search l
          if s.exited then exitVerdict sawError2
          else waitLoop w (t + s.dt) sawError2 rest
      | none =>
        if s.exited then exitVerdict sawError
        else waitLoop w (t + s.dt) sawError rest
    else finishVerdict sawError

/-- `_wait_for_outcome(proc, wait_secs)` (lib.py lines 42-67), as a function
of the wait window and the iteration trace: `deadline = time.time() +
wait_secs` with start time normalised to `0`, `saw_error = False`. -/
def waitForOutcome (waitSecs : Int) (trace : List PollStep) : String :=
  waitLoop waitSecs 0 false trace

/-- A step at which the loop keeps going: no exit observed, and the
dequeued line (if any) does not match the session pattern. -/
def stepBenign (s : PollStep) : Bool :=
  !s.exited &&
    (match s.line with
     | some l => !SESSION_RE_search l
     | none => true)

/-- Whether the step dequeued a line matching the error pattern. -/
def stepErr (s : PollStep) : Bool :=
  match s.line with
  | some l => ERROR_RE_search l
  | none => false

/-- Whether some step of the list dequeued an error-matching line. -/
def errSeen (steps : List PollStep) : Bool :=
  steps.any stepErr

/-- Total time consumed by a list of iterations. -/
def cumTime (steps : List PollStep) : Nat :=
  (steps.map PollStep.dt).sum

@[simp]
lemma cumTime_nil : cumTime [] = 0 := rfl

@[simp]
lemma cumTime_cons (s : PollStep) (l : List PollStep) :
    cumTime (s :: l) = s.dt + cumTime l := by
  simp [cumTime]

@[simp]
lemma errSeen_nil : errSeen [] = false := rfl

@[simp]
lemma errSeen_cons (s : PollStep) (l : List PollStep) :
    errSeen (s :: l) = (stepErr s || errSeen l) := by
  simp [errSeen]

@[simp]
lemma errSeen_append (l1 l2 : List PollStep) :
    errSeen (l1 ++ l2) = (errSeen l1 || errSeen l2) := by
  simp [errSeen, List.any_append]

lemma stepBenign_exited {s : PollStep} (h : stepBenign s = true) :
    s.exited = false := by
  unfold stepBenign at h
  simp only [Bool.and_eq_true, Bool.not_eq_true'] at h
  exact h.1

lemma stepBenign_session {s : PollStep} {l : List Char}
    (h : stepBenign s = true) (hl : s.line = some l) :
    SESSION_RE_search l = false := by
  unfold stepBenign at h
  rw [hl] at h
  simp only [Bool.and_eq_true, Bool.not_eq_true'] at h
  exact h.2

/-- Unfolding of one loop iteration. -/
lemma waitLoop_cons (w t : Int) (sawE : Bool) (s : PollStep)
    (rest : List PollStep) :
    waitLoop w t sawE (s :: rest) =
      if t < w then
        match s.line with
        | some l =>
          if SESSION_RE_search l then "session"
          else
            if s.exited then exitVerdict (sawE || ERROR_RE_search l)
            else waitLoop w (t + s.dt) (sawE || ERROR_RE_search l) rest
        | none =>
          if s.exited then exitVerdict sawE
          else waitLoop w (t + s.dt) sawE rest
      else finishVerdict sawE := rfl

lemma waitLoop_step_session {w t : Int} {sawE : Bool} {s : PollStep}
    {rest : List PollStep} {l : List Char} (htw : t < w)
    (hsl : s.line = some l) (hsess : SESSION_RE_search l = true) :
    waitLoop w t sawE (s :: rest) = "session" := by
  rw [waitLoop_cons, if_pos htw, hsl]
  simp [hsess]

lemma waitLoop_step_exit_some {w t : Int} {sawE : Bool} {s : PollStep}
    {rest : List PollStep} {l : List Char} (htw : t < w)
    (hsl : s.line = some l) (hsess : SESSION_RE_search l = false)
    (hexit : s.exited = true) :
    waitLoop w t sawE (s :: rest) = exitVerdict (sawE || ERROR_RE_search l) := by
  rw [waitLoop_cons, if_pos htw, hsl]
  simp [hsess, hexit]

lemma waitLoop_step_exit_none {w t : Int} {sawE : Bool} {s : PollStep}
    {rest : List PollStep} (htw : t < w) (hsl : s.line = none)
    (hexit : s.exited = true) :
    waitLoop w t sawE (s :: rest) = exitVerdict sawE := by
  rw [waitLoop_cons, if_pos htw, hsl]
  simp [hexit]

lemma waitLoop_step_some {w t : Int} {sawE : Bool} {s : PollStep}
    {rest : List PollStep} {l : List Char} (htw : t < w)
    (hsl : s.line = some l) (hsess : SESSION_RE_search l = false)
    (hexit : s.exited = false) :
    waitLoop w t sawE (s :: rest) =
      waitLoop w (t + s.dt) (sawE || ERROR_RE_search l) rest := by
  rw [waitLoop_cons, if_pos htw, hsl]
  simp [hsess, hexit]

lemma waitLoop_step_none {w t : Int} {sawE : Bool} {s : PollStep}
    {rest : List PollStep} (htw : t < w) (hsl : s.line = none)
    (hexit : s.exited = false) :
    waitLoop w t sawE (s :: rest) = waitLoop w (t + s.dt) sawE rest := by
  rw [waitLoop_cons, if_pos htw, hsl]
  simp [hexit]

lemma waitLoop_step_late {w t : Int} {sawE : Bool} {s : PollStep}
    {rest : List PollStep} (htw : ¬t < w) :
    waitLoop w t sawE (s :: rest) = finishVerdict sawE := by
  rw [waitLoop_cons, if_neg htw]

lemma stepErr_none {s : PollStep} (h : s.line = none) : stepErr s = false := by
  unfold stepErr
  rw [h]

lemma stepErr_some {s : PollStep} {l : List Char} (h : s.line = some l) :
    stepErr s = ERROR_RE_search l := by
  unfold stepErr
  rw [h]

/-- Reachability: while every iteration of `pre` is benign and the clock
stays inside the window, the loop just advances the clock and accumulates
the error flag across `pre`, then continues with `rest`. -/
lemma waitLoop_append (w : Int) (pre : List PollStep) :
    ∀ (t : Int) (sawE : Bool) (rest : List PollStep),
      (∀ s ∈ pre, stepBenign s = true) →
      t + (cumTime pre : Int) < w →
      waitLoop w t sawE (pre ++ rest) =
        waitLoop w (t + cumTime pre) (sawE || errSeen pre) rest := by
  induction pre with
  | nil =>
    intro t sawE rest _ _
    simp
  | cons s pre ih =>
    intro t sawE rest hb ht
    have hbs : stepBenign s = true := hb s (List.mem_cons_self s pre)
    have hbp : ∀ x ∈ pre, stepBenign x = true :=
      fun x hx => hb x (List.mem_cons_of_mem s hx)
    have hcast : (0 : Int) ≤ (cumTime pre : Int) := Int.ofNat_nonneg _
    have htw : t < w := by
      rw [cumTime_cons] at ht
      push_cast at ht
      omega
    have hts : t + (s.dt : Int) + (cumTime pre : Int) < w := by
      rw [cumTime_cons] at ht
      push_cast at ht
      omega
    have hexit : s.exited = false := stepBenign_exited hbs
    have e1 : t + (s.dt : Int) + (cumTime pre : Int) =
        t + (cumTime (s :: pre) : Int) := by
      rw [cumTime_cons]
      push_cast
      ring
    rw [List.cons_append]
    cases hsl : s.line with
    | none =>
      rw [waitLoop_step_none htw hsl hexit, ih (t + s.dt) sawE rest hbp hts,
        e1, errSeen_cons, stepErr_none hsl, Bool.false_or]
    | some l =>
      have hsess : SESSION_RE_search l = false := stepBenign_session hbs hsl
      rw [waitLoop_step_some htw hsl hsess hexit,
        ih (t + s.dt) (sawE || ERROR_RE_search l) rest hbp hts,
        e1, errSeen_cons, stepErr_some hsl, Bool.or_assoc]

/-- Sticky error: once `saw_error` is set, a run whose remaining iterations
are all benign ends with verdict `"error"`, wherever the clock stands. -/
lemma waitLoop_error_of_benign (w : Int) (steps : List PollStep)
    (hb : ∀ s ∈ steps, stepBenign s = true) :
    ∀ t : Int, waitLoop w t true steps = "error" := by
  induction steps with
  | nil => intro t; rfl
  | cons s rest ih =>
    intro t
    have hbs : stepBenign s = true := hb s (List.mem_cons_self s rest)
    have hbr : ∀ x ∈ rest, stepBenign x = true :=
      fun x hx => hb x (List.mem_cons_of_mem s hx)
    have hexit : s.exited = false := stepBenign_exited hbs
    by_cases htw : t < w
    · cases hsl : s.line with
      | none =>
        rw [waitLoop_step_none htw hsl hexit]
        exact ih hbr (t + s.dt)
      | some l =>
        have hsess : SESSION_RE_search l = false := stepBenign_session hbs hsl
        rw [waitLoop_step_some htw hsl hsess hexit, Bool.true_or]
        exact ih hbr (t + s.dt)
    · rw [waitLoop_step_late htw]
      rfl

/-- A run whose iterations are all benign and dequeue no error line ends
with verdict `"timeout"` when started with the flag clear. -/
lemma waitLoop_timeout_of_benign (w : Int) (steps : List PollStep)
    (hb : ∀ s ∈ steps, stepBenign s = true)
    (he : ∀ s ∈ steps, stepErr s = false) :
    ∀ t : Int, waitLoop w t false steps = "timeout" := by
  induction steps with
  | nil => intro t; rfl
  | cons s rest ih =>
    intro t
    have hbs : stepBenign s = true := hb s (List.mem_cons_self s rest)
    have hes : stepErr s = false := he s (List.mem_cons_self s rest)
    have hbr : ∀ x ∈ rest, stepBenign x = true :=
      fun x hx => hb x (List.mem_cons_of_mem s hx)
    have her : ∀ x ∈ rest, stepErr x = false :=
      fun x hx => he x (List.mem_cons_of_mem s hx)
    have hexit : s.exited = false := stepBenign_exited hbs
    by_cases htw : t < w
    · cases hsl : s.line with
      | none =>
        rw [waitLoop_step_none htw hsl hexit]
        exact ih hbr her (t + s.dt)
      | some l =>
        have hsess : SESSION_RE_search l = false := stepBenign_session hbs hsl
        have herr : ERROR_RE_search l = false := by
          rw [stepErr_some hsl] at hes
          exact hes
        rw [waitLoop_step_some htw hsl hsess hexit, herr, Bool.or_false]
        exact ih hbr her (t + s.dt)
    · rw [waitLoop_step_late htw]
      rfl

/-- Every branch of the loop yields one of the four verdict strings. -/
lemma waitLoop_verdicts (w : Int) (steps : List PollStep) :
    ∀ (t : Int) (sawE : Bool),
      waitLoop w t sawE steps = "session" ∨ waitLoop w t sawE steps = "error" ∨
      waitLoop w t sawE steps = "timeout" ∨ waitLoop w t sawE steps = "eof" := by
  induction steps with
  | nil =>
    intro t sawE
    cases sawE
    · right; right; left; rfl
    · right; left; rfl
  | cons s rest ih =>
    intro t sawE
    by_cases htw : t < w
    · cases hsl : s.line with
      | none =>
        cases hexit : s.exited
        · rw [waitLoop_step_none htw hsl hexit]
          exact ih (t + s.dt) sawE
        · rw [waitLoop_step_exit_none htw hsl hexit]
          cases sawE
          · right; right; right; rfl
          · right; left; rfl
      | some l =>
        cases hsess : SESSION_RE_search l
        · cases hexit : s.exited
          · rw [waitLoop_step_some htw hsl hsess hexit]
            exact ih (t + s.dt) (sawE || ERROR_RE_search l)
          · rw [waitLoop_step_exit_some htw hsl hsess hexit]
            cases sawE || ERROR_RE_search l
            · right; right; right; rfl
            · right; left; rfl
        · left
          exact waitLoop_step_session htw hsl hsess
    · rw [waitLoop_step_late htw]
      cases sawE
      · right; right; left; rfl
      · right; left; rfl

/-- C1: if, in a run of `_wait_for_outcome`, a line matching `SESSION_RE`
is dequeued while the wait window is still open (all earlier iterations
being ones that kept the loop going), the verdict is `"session"`,
regardless of anything dequeued or observed afterwards (`post` is
arbitrary, so later output — including further session lines — cannot
change the verdict). -/
theorem C1_session_short_circuits (w : Int) (pre : List PollStep)
    (s : PollStep) (post : List PollStep) (l : List Char)
    (hb : ∀ x ∈ pre, stepBenign x = true)
    (ht : (cumTime pre : Int) < w)
    (hsl : s.line = some l) (hsess : SESSION_RE_search l = true) :
    waitForOutcome w (pre ++ s :: post) = "session" := by
  unfold waitForOutcome
  rw [waitLoop_append w pre 0 false (s :: post) hb (by omega)]
  exact waitLoop_step_session (by omega) hsl hsess

/-- Witness for C1: a benign line, then a session line, then further
output (an error line and an exit) that does not change the verdict. -/
theorem C1_witness :
    waitForOutcome 10
      ([⟨1, some "goncat starting".toList, false⟩] ++
        ⟨0, some "Session with abc established".toList, false⟩ ::
        [⟨0, some "Error: late".toList, true⟩,
         ⟨0, some "Session with xyz established".toList, false⟩]) =
      "session" :=
  C1_session_short_circuits 10 _ _ _ _ (by decide) (by decide) rfl (by decide)

/-- C2: if the loop observes `proc.poll() is not None` at an iteration
reached inside the wait window, before any session line was dequeued (the
line of that same iteration, if any, not matching `SESSION_RE`), it
returns immediately: `"error"` when an error line was dequeued up to and
including that iteration, else `"eof"`. -/
theorem C2_exit_stops_loop (w : Int) (pre : List PollStep) (s : PollStep)
    (post : List PollStep)
    (hb : ∀ x ∈ pre, stepBenign x = true)
    (ht : (cumTime pre : Int) < w)
    (hexit : s.exited = true)
    (hns : ∀ l, s.line = some l → SESSION_RE_search l = false) :
    waitForOutcome w (pre ++ s :: post) =
      if errSeen (pre ++ [s]) then "error" else "eof" := by
  unfold waitForOutcome
  rw [waitLoop_append w pre 0 false (s :: post) hb (by omega), Bool.false_or]
  cases hsl : s.line with
  | none =>
    rw [waitLoop_step_exit_none (by omega) hsl hexit, errSeen_append,
      errSeen_cons, errSeen_nil, stepErr_none hsl, Bool.or_false,
      Bool.or_false]
    rfl
  | some l =>
    rw [waitLoop_step_exit_some (by omega) hsl (hns l hsl) hexit,
      errSeen_append, errSeen_cons, errSeen_nil, stepErr_some hsl,
      Bool.or_false]
    rfl

/-- Witness for C2: an error line is dequeued, then the process is seen
exited; the verdict is `"error"` (and with no error line it is `"eof"`,
which the theorem also covers via the `if`). -/
theorem C2_witness :
    waitForOutcome 10
      ([⟨1, some "Error: connection refused".toList, false⟩] ++
        ⟨1, none, true⟩ :: [⟨0, some "ignored".toList, false⟩]) =
      (if errSeen ([⟨1, some "Error: connection refused".toList, false⟩] ++
          [⟨1, none, true⟩]) then "error" else "eof") :=
  C2_exit_stops_loop 10 _ _ _ (by decide) (by decide) rfl
    (fun l h => by cases h)

/-- C3: if every iteration of the run keeps the loop going (no session
line, no exit observed), then (a) when no dequeued line matched
`ERROR_RE`, the verdict is `"timeout"`; (b) when some iteration reached
inside the wait window dequeued an `ERROR_RE` line, the verdict is
`"error"`. -/
theorem C3_window_exhausted (w : Int) (trace : List PollStep)
    (hb : ∀ x ∈ trace, stepBenign x = true) :
    ((∀ x ∈ trace, stepErr x = false) → waitForOutcome w trace = "timeout") ∧
    (∀ pre s post, trace = pre ++ s :: post → (cumTime pre : Int) < w →
      stepErr s = true → waitForOutcome w trace = "error") := by
  constructor
  · intro he
    exact waitLoop_timeout_of_benign w trace hb he 0
  · intro pre s post htr ht herr
    subst htr
    have hbp : ∀ x ∈ pre, stepBenign x = true :=
      fun x hx => hb x (List.mem_append_left _ hx)
    have hbs : stepBenign s = true :=
      hb s (List.mem_append_right _ (List.mem_cons_self s post))
    have hbpost : ∀ x ∈ post, stepBenign x = true :=
      fun x hx => hb x (List.mem_append_right _ (List.mem_cons_of_mem s hx))
    cases hsl : s.line with
    | none =>
      rw [stepErr_none hsl] at herr
      exact absurd herr (by decide)
    | some l =>
      rw [stepErr_some hsl] at herr
      have hsess : SESSION_RE_search l = false := stepBenign_session hbs hsl
      have hexit : s.exited = false := stepBenign_exited hbs
      unfold waitForOutcome
      rw [waitLoop_append w pre 0 false (s :: post) hbp (by omega),
        waitLoop_step_some (by omega) hsl hsess hexit, herr, Bool.or_true]
      exact waitLoop_error_of_benign w post hbpost _

/-- Witness for C3: part (a) on a benign errorless trace that outlives the
window, and part (b) on a trace whose second iteration dequeues an error
line, where the window then runs out. -/
theorem C3_witness :
    waitForOutcome 2
      [⟨1, some "goncat starting".toList, false⟩, ⟨1, none, false⟩,
       ⟨1, none, false⟩] = "timeout" ∧
    waitForOutcome 3
      ([⟨1, none, false⟩] ++ ⟨1, some "Error: bad key".toList, false⟩ ::
        [⟨1, none, false⟩, ⟨1, none, false⟩]) = "error" :=
  ⟨(C3_window_exhausted 2 _ (by decide)).1 (by decide),
   (C3_window_exhausted 3 _ (by decide)).2 [⟨1, none, false⟩]
     ⟨1, some "Error: bad key".toList, false⟩ [⟨1, none, false⟩,
       ⟨1, none, false⟩] rfl (by decide) (by decide)⟩

/-- C4: dequeuing an `ERROR_RE` line (that is not a session line, with no
exit observed) never returns on that iteration: the run continues as the
loop on the remaining iterations with the `saw_error` flag set, so the
verdict is whatever that continuation produces — the flag is only consulted
when the continuation ends by exit or window exhaustion. -/
theorem C4_error_is_deferred (w : Int) (pre : List PollStep) (s : PollStep)
    (post : List PollStep) (l : List Char)
    (hb : ∀ x ∈ pre, stepBenign x = true)
    (ht : (cumTime pre : Int) < w)
    (hsl : s.line = some l) (hsess : SESSION_RE_search l = false)
    (herr : ERROR_RE_search l = true) (hexit : s.exited = false) :
    waitForOutcome w (pre ++ s :: post) =
      waitLoop w ((cumTime pre : Int) + s.dt) true post := by
  unfold waitForOutcome
  rw [waitLoop_append w pre 0 false (s :: post) hb (by omega),
    waitLoop_step_some (by omega) hsl hsess hexit, herr, Bool.or_true,
    Int.zero_add]

/-- Witness for C4: after an error line the loop keeps polling and a later
session line still wins, so the error line did not cause a return. -/
theorem C4_witness :
    waitForOutcome 10
      ([⟨1, some "goncat starting".toList, false⟩] ++
        ⟨1, some "Error: temporary failure".toList, false⟩ ::
        [⟨1, some "Session with abc established".toList, false⟩]) =
      waitLoop 10 ((1 : Int) + 1) true
        [⟨1, some "Session with abc established".toList, false⟩] :=
  C4_error_is_deferred 10 _ _ _ _ (by decide) (by decide) rfl (by decide)
    (by decide) rfl

/-- C7: `_wait_for_outcome` always produces exactly one verdict, and it is
one of the four strings `"session"`, `"error"`, `"timeout"`, `"eof"`. -/
theorem C7_verdict_total (w : Int) (trace : List PollStep) :
    waitForOutcome w trace = "session" ∨ waitForOutcome w trace = "error" ∨
    waitForOutcome w trace = "timeout" ∨ waitForOutcome w trace = "eof" :=
  waitLoop_verdicts w trace 0 false

/-- C10: with a non-positive wait window the deadline lies at or before the
start time, so the loop body never runs: the verdict is `"timeout"` for
every trace — even one whose first iteration would have dequeued a session
line or observed the process exited. -/
theorem C10_nonpositive_window (w : Int) (trace : List PollStep)
    (hw : w ≤ 0) : waitForOutcome w trace = "timeout" := by
  unfold waitForOutcome
  cases trace with
  | nil => rfl
  | cons s rest =>
    rw [waitLoop_step_late (by omega)]
    rfl

/-- Witness for C10: wait window `0`, against a trace that would have both
a session line and an exited process. -/
theorem C10_witness :
    waitForOutcome 0
      [⟨0, some "Session with abc established".toList, true⟩] = "timeout" :=
  C10_nonpositive_window 0 _ (by decide)

lemma litPrefixOf_iff (p : List Char) :
    ∀ l : List Char, litPrefixOf p l = true ↔ ∃ t, l = p ++ t := by
  induction p with
  | nil =>
    intro l
    simp [litPrefixOf]
  | cons p ps ih =>
    intro l
    cases l with
    | nil =>
      simp [litPrefixOf]
    | cons c cs =>
      simp only [litPrefixOf, Bool.and_eq_true, beq_iff_eq, ih cs]
      constructor
      · rintro ⟨rfl, t, rfl⟩
        exact ⟨t, rfl⟩
      · rintro ⟨t, ht⟩
        rw [List.cons_append] at ht
        rw [List.cons.injEq] at ht
        exact ⟨ht.1.symm, t, ht.2⟩

lemma litSearch_iff (pat : List Char) :
    ∀ l : List Char, litSearch pat l = true ↔ ∃ a b, l = a ++ pat ++ b := by
  intro l
  induction l with
  | nil =>
    rw [litSearch, litPrefixOf_iff]
    constructor
    · rintro ⟨t, ht⟩
      exact ⟨[], t, by simpa using ht⟩
    · rintro ⟨a, b, h⟩
      exact ⟨b, by
        rcases List.append_eq_nil.mp h.symm with ⟨h1, h2⟩
        rcases List.append_eq_nil.mp h1 with ⟨-, h3⟩
        simp [h3, h2]⟩
  | cons c cs ih =>
    rw [litSearch, Bool.or_eq_true, litPrefixOf_iff, ih]
    constructor
    · rintro (⟨t, ht⟩ | ⟨a, b, h⟩)
      · exact ⟨[], t, by simpa using ht⟩
      · exact ⟨c :: a, b, by rw [h]; rfl⟩
    · rintro ⟨a, b, h⟩
      cases a with
      | nil =>
        exact Or.inl ⟨b, by simpa using h⟩
      | cons a1 arest =>
        rw [List.cons_append, List.cons_append, List.cons.injEq] at h
        exact Or.inr ⟨arest, b, h.2⟩

/-- C5 counterexample: the claim says an error is recorded exactly for
lines that begin with `Error:`, yet `ERROR_RE.search` also fires on a line
that merely contains `Error:` later in the line, refuting the claimed
equivalence at this input. -/
theorem C5_counterexample :
    ERROR_RE_search "x Error: y".toList = true ∧
    litPrefixOf "Error:".toList "x Error: y".toList = false := by
  decide

/-- C5 amended: the classifier records an error for a dequeued line if and
only if the line contains `Error:` as a substring anywhere (`re.search`
with the literal pattern `Error:`), not only when the line begins with it. -/
theorem C5_error_pattern_substring (l : List Char) :
    ERROR_RE_search l = true ↔ ∃ a b, l = a ++ "Error:".toList ++ b :=
  litSearch_iff "Error:".toList l

/-- Witness for C5: the amended characterisation applied at a concrete
line. -/
theorem C5_witness :
    ERROR_RE_search "Error: handshake failed".toList = true :=
  (C5_error_pattern_substring "Error: handshake failed".toList).mpr
    ⟨[], " handshake failed".toList, by decide⟩

/-- Configuration stored by `MasterRunner.__init__` (lib.py lines 76-92)
and, identically, by `MasterConnector.__init__` (lines 165-181). -/
structure RunnerCfg where
  transport : String
  bin : String
  wait_pos : Int
  wait_neg : Int
  deadline_pos : Int
  deadline_neg : Int
deriving DecidableEq, Repr

/-- `MasterRunner.__init__(transport, bin_path, wait_pos, wait_neg,
deadline_pos, deadline_neg)`: raises `ValueError` on a falsy (empty)
transport, else stores the parameters.  The source's default arguments are
`bin_path="/opt/dist/goncat.elf"`, `wait_pos=30`, `wait_neg=12`,
`deadline_pos=35`, `deadline_neg=14`; every instantiation in the e2e test
scripts passes only `transport`. -/
def MasterRunner_init (transport bin_path : String)
    (wait_pos wait_neg deadline_pos deadline_neg : Int) : Option RunnerCfg :=
  if transport = "" then none
  else some ⟨transport, bin_path, wait_pos, wait_neg, deadline_pos,
    deadline_neg⟩

/-- `MasterConnector.__init__` (lib.py lines 165-181): same parameters and
same defaults as `MasterRunner.__init__`. -/
def MasterConnector_init (transport bin_path : String)
    (wait_pos wait_neg deadline_pos deadline_neg : Int) : Option RunnerCfg :=
  if transport = "" then none
  else some ⟨transport, bin_path, wait_pos, wait_neg, deadline_pos,
    deadline_neg⟩

/-- Observable facts of one `run_positive` / `run_negative` call: the
duration the watchdog thread was armed with, the wait window passed to
`_wait_for_outcome` for the same process, and the returned boolean. -/
structure RunResult where
  armed_deadline : Int
  wait_window : Int
  ok : Bool
deriving DecidableEq, Repr

/-- `MasterRunner.run_positive` (lib.py lines 114-125): watchdog armed with
`deadline_pos`, classification window `wait_pos`, and
`ok = (outcome == "session")`. -/
def MasterRunner_run_positive (r : RunnerCfg) (trace : List PollStep) :
    RunResult :=
  let outcome := waitForOutcome r.wait_pos trace
  ⟨r.deadline_pos, r.wait_pos, outcome == "session"⟩

/-- `MasterRunner.run_negative` (lib.py lines 127-155): watchdog armed with
`deadline_neg`, classification window `wait_neg`; `ok` is `False` on
`"session"`, `False` when `require_error` is set and the outcome is not
`"error"`, else `True`. -/
def MasterRunner_run_negative (r : RunnerCfg) (require_error : Bool)
    (trace : List PollStep) : RunResult :=
  let outcome := waitForOutcome r.wait_neg trace
  ⟨r.deadline_neg, r.wait_neg,
    if outcome == "session" then false
    else if require_error && !(outcome == "error") then false
    else true⟩

/-- `MasterConnector.run_positive` (lib.py lines 202-214): duplicated body
of `MasterRunner.run_positive`. -/
def MasterConnector_run_positive (r : RunnerCfg) (trace : List PollStep) :
    RunResult :=
  let outcome := waitForOutcome r.wait_pos trace
  ⟨r.deadline_pos, r.wait_pos, outcome == "session"⟩

/-- `MasterConnector.run_negative` (lib.py lines 216-245): duplicated body
of `MasterRunner.run_negative` (only the `require_error` default at the
call boundary differs, `True` instead of `False`). -/
def MasterConnector_run_negative (r : RunnerCfg) (require_error : Bool)
    (trace : List PollStep) : RunResult :=
  let outcome := waitForOutcome r.wait_neg trace
  ⟨r.deadline_neg, r.wait_neg,
    if outcome == "session" then false
    else if require_error && !(outcome == "error") then false
    else true⟩

/-- C6: for every instance the test suite constructs — the scripts pass
only `transport`, so all timing fields keep the `__init__` defaults — the
watchdog deadline armed by a run strictly exceeds the classification wait
window used for the same process, on the positive and negative paths of
both `MasterRunner` and `MasterConnector`. -/
theorem C6_deadline_exceeds_window (transport : String) (r c : RunnerCfg)
    (hr : MasterRunner_init transport "/opt/dist/goncat.elf" 30 12 35 14 =
      some r)
    (hc : MasterConnector_init transport "/opt/dist/goncat.elf" 30 12 35 14 =
      some c)
    (req : Bool) (trace : List PollStep) :
    (MasterRunner_run_positive r trace).wait_window <
        (MasterRunner_run_positive r trace).armed_deadline ∧
    (MasterRunner_run_negative r req trace).wait_window <
        (MasterRunner_run_negative r req trace).armed_deadline ∧
    (MasterConnector_run_positive c trace).wait_window <
        (MasterConnector_run_positive c trace).armed_deadline ∧
    (MasterConnector_run_negative c req trace).wait_window <
        (MasterConnector_run_negative c req trace).armed_deadline := by
  unfold MasterRunner_init at hr
  unfold MasterConnector_init at hc
  split at hr
  · cases hr
  · split at hc
    · cases hc
    · injection hr with hr1
      injection hc with hc1
      subst hr1
      subst hc1
      refine ⟨?_, ?_, ?_, ?_⟩ <;>
        simp [MasterRunner_run_positive, MasterRunner_run_negative,
          MasterConnector_run_positive, MasterConnector_run_negative]

/-- Witness for C6: the default-parameter instances, as built by every
test script, with an empty trace and both `require_error` settings covered
by `req := false`. -/
theorem C6_witness :
    (MasterRunner_run_positive
        ⟨"tcp", "/opt/dist/goncat.elf", 30, 12, 35, 14⟩ []).wait_window <
      (MasterRunner_run_positive
        ⟨"tcp", "/opt/dist/goncat.elf", 30, 12, 35, 14⟩ []).armed_deadline ∧
    (MasterRunner_run_negative
        ⟨"tcp", "/opt/dist/goncat.elf", 30, 12, 35, 14⟩ false []).wait_window <
      (MasterRunner_run_negative
        ⟨"tcp", "/opt/dist/goncat.elf", 30, 12, 35, 14⟩ false
          []).armed_deadline ∧
    (MasterConnector_run_positive
        ⟨"tcp", "/opt/dist/goncat.elf", 30, 12, 35, 14⟩ []).wait_window <
      (MasterConnector_run_positive
        ⟨"tcp", "/opt/dist/goncat.elf", 30, 12, 35, 14⟩ []).armed_deadline ∧
    (MasterConnector_run_negative
        ⟨"tcp", "/opt/dist/goncat.elf", 30, 12, 35, 14⟩ false []).wait_window <
      (MasterConnector_run_negative
        ⟨"tcp", "/opt/dist/goncat.elf", 30, 12, 35, 14⟩ false
          []).armed_deadline :=
  C6_deadline_exceeds_window "tcp" _ _ (by decide) (by decide) false []

/-- C8: the verdict comparison of the scenario runners: `run_positive`
succeeds exactly on `"session"`; `run_negative` fails on `"session"`,
fails when `require_error` is set and the outcome is not `"error"`, and
succeeds in every other case. -/
theorem C8_verdict_comparison (r : RunnerCfg) (req : Bool)
    (trace : List PollStep) :
    ((MasterRunner_run_positive r trace).ok = true ↔
      waitForOutcome r.wait_pos trace = "session") ∧
    ((MasterConnector_run_positive r trace).ok = true ↔
      waitForOutcome r.wait_pos trace = "session") ∧
    (waitForOutcome r.wait_neg trace = "session" →
      (MasterRunner_run_negative r req trace).ok = false ∧
      (MasterConnector_run_negative r req trace).ok = false) ∧
    (req = true → waitForOutcome r.wait_neg trace ≠ "error" →
      (MasterRunner_run_negative r req trace).ok = false ∧
      (MasterConnector_run_negative r req trace).ok = false) ∧
    (waitForOutcome r.wait_neg trace ≠ "session" →
      (req = false ∨ waitForOutcome r.wait_neg trace = "error") →
      (MasterRunner_run_negative r req trace).ok = true ∧
      (MasterConnector_run_negative r req trace).ok = true) := by
  refine ⟨?_, ?_, ?_, ?_, ?_⟩
  · simp [MasterRunner_run_positive]
  · simp [MasterConnector_run_positive]
  · intro ho
    constructor <;> simp [MasterRunner_run_negative,
      MasterConnector_run_negative, ho]
  · intro hreq hne
    subst hreq
    by_cases hs : waitForOutcome r.wait_neg trace = "session"
    · constructor <;> simp [MasterRunner_run_negative,
        MasterConnector_run_negative, hs]
    · constructor <;> simp [MasterRunner_run_negative,
        MasterConnector_run_negative, hs, hne]
  · intro hs hcase
    rcases hcase with hreq | herr
    · subst hreq
      constructor <;> simp [MasterRunner_run_negative,
        MasterConnector_run_negative, hs]
    · constructor <;> simp [MasterRunner_run_negative,
        MasterConnector_run_negative, hs, herr]

/-- Witness for C8: a trace that classifies as `"error"` under the default
windows; with `require_error` set, `run_negative` succeeds on it while
`run_positive` fails. -/
theorem C8_witness :
    ((MasterRunner_run_negative
        ⟨"tcp", "/opt/dist/goncat.elf", 30, 12, 35, 14⟩ true
        [⟨1, some "Error: bad key".toList, false⟩, ⟨1, none, true⟩]).ok =
      true) ∧
    ((MasterRunner_run_positive
        ⟨"tcp", "/opt/dist/goncat.elf", 30, 12, 35, 14⟩
        [⟨1, some "Error: bad key".toList, false⟩, ⟨1, none, true⟩]).ok =
      true ↔
      waitForOutcome 30
        [⟨1, some "Error: bad key".toList, false⟩, ⟨1, none, true⟩] =
        "session") :=
  ⟨((C8_verdict_comparison
      ⟨"tcp", "/opt/dist/goncat.elf", 30, 12, 35, 14⟩ true
      [⟨1, some "Error: bad key".toList, false⟩, ⟨1, none, true⟩]).2.2.2.2
        (by decide) (Or.inr (by decide))).1,
   (C8_verdict_comparison
      ⟨"tcp", "/opt/dist/goncat.elf", 30, 12, 35, 14⟩ true
      [⟨1, some "Error: bad key".toList, false⟩, ⟨1, none, true⟩]).1⟩

/-- Signals `_kill_best_effort` may send to the process. -/
inductive KillSig
  | terminate
  | kill
deriving DecidableEq, Repr

/-- The two `p.poll()` observations a `_kill_best_effort` call makes: one
on entry and one before the `kill` step (the second `if` runs whether or
not the first fired). -/
structure KillPollObs where
  poll1 : Option Int
  poll2 : Option Int
deriving DecidableEq, Repr

/-- `subprocess.Popen.poll` semantics: exit status is sticky — once `poll`
reports an exit code, later polls of the same process report it too. -/
def KillPollObs.sticky (o : KillPollObs) : Prop :=
  ∀ c, o.poll1 = some c → o.poll2 = some c

/-- `_kill_best_effort(p)` (lib.py lines 24-31), as the list of signals it
sends: `terminate` when the entry poll shows the process alive (`None`),
then `kill` when the poll before it still does.  The `try/except: pass`
wrappers around both signal calls mean the function itself never raises. -/
def kill_best_effort (o : KillPollObs) : List KillSig :=
  (if o.poll1 = none then [KillSig.terminate] else []) ++
    (if o.poll2 = none then [KillSig.kill] else [])

/-- C9: on a process that already exited (entry poll reports an exit
code), `_kill_best_effort` sends neither `terminate` nor `kill`.  Since
the exit status is sticky, every later call observes the same exited
state, so repeating the call is safe: each repetition is this same no-op. -/
theorem C9_teardown_noop (o : KillPollObs) (c : Int)
    (hs : o.sticky) (h1 : o.poll1 = some c) :
    kill_best_effort o = [] := by
  unfold kill_best_effort
  rw [h1, hs c h1]
  simp

/-- Witness for C9: a process observed exited with code `0` at both polls. -/
theorem C9_witness : kill_best_effort ⟨some 0, some 0⟩ = [] :=
  C9_teardown_noop ⟨some 0, some 0⟩ 0 (fun _ h => h) rfl

end Goncat
